import Mathlib

/-!
Verification of `@kastov/cryptohapp`: a library producing Happ crypto deep
links by RSA-encrypting content with a versioned public key, base64-encoding
the ciphertext and attaching a version-specific URI scheme.

The repository ships three implementation variants of `createHappCryptoLink`
in `src/crypto/create-happ-crypto-link.backend.ts`:
  * a Node.js backend variant using `node:crypto`'s `publicEncrypt`
    (try/catch, optional version argument defaulting to 'v4');
  * an overloaded jsencrypt variant with an `asLink` flag selecting a
    composed-string or pair output (version argument required);
  * a jsencrypt frontend variant (pair output, version defaulting to 'v4').

The RSA primitives (`publicEncrypt`, `JSEncrypt.encrypt`) are external
collaborators of the code; the embeddings are parameterised over them as
oracles.  Where a concrete primitive behaviour is needed, a model written
from the spec's contract for the primitive is used and documented as such.
-/

namespace Cryptohapp

/-- Crypto configuration record: a PEM public key and a deep link URI scheme,
mirroring the shape of the `HAPP_CRYPTO_V*` constants. -/
structure CryptoConfig where
  publicKey : String
  deepLink : String
deriving DecidableEq

/-- Modelled from the spec: the constant `HAPP_CRYPTO_V2` is imported from
`../constants`, a repository file not present under `src/`.  The spec fixes
its `deepLink` to `happ://crypt2/` and guarantees a distinct, non-empty
PEM-encoded RSA public key. -/
def HAPP_CRYPTO_V2 : CryptoConfig :=
  { publicKey := "-----BEGIN PUBLIC KEY-----HAPPV2-----END PUBLIC KEY-----"
    deepLink := "happ://crypt2/" }

/-- Modelled from the spec: the constant `HAPP_CRYPTO_V3` is imported from
`../constants`, a repository file not present under `src/`.  The spec fixes
its `deepLink` to `happ://crypt3/` and guarantees a distinct, non-empty
PEM-encoded RSA public key. -/
def HAPP_CRYPTO_V3 : CryptoConfig :=
  { publicKey := "-----BEGIN PUBLIC KEY-----HAPPV3-----END PUBLIC KEY-----"
    deepLink := "happ://crypt3/" }

/-- Modelled from the spec: the constant `HAPP_CRYPTO_V4` is imported from
`../constants`, a repository file not present under `src/`.  The spec fixes
its `deepLink` to `happ://crypt4/` and guarantees a distinct, non-empty
PEM-encoded RSA public key. -/
def HAPP_CRYPTO_V4 : CryptoConfig :=
  { publicKey := "-----BEGIN PUBLIC KEY-----HAPPV4-----END PUBLIC KEY-----"
    deepLink := "happ://crypt4/" }

/-- The `CRYPTO_CONFIGS` lookup table.  The version tag is a runtime string,
as it is in a dynamically typed host; `none` models the JavaScript value
`undefined` produced by indexing the object with an unknown tag. -/
def CRYPTO_CONFIGS : String → Option CryptoConfig
  | "v2" => some HAPP_CRYPTO_V2
  | "v3" => some HAPP_CRYPTO_V3
  | "v4" => some HAPP_CRYPTO_V4
  | _ => none

/-- Result shape `HappCryptoResult`: deep link scheme and base64 ciphertext. -/
structure HappCryptoResult where
  deepLink : String
  encryptedContent : String
deriving DecidableEq

/-- UTF-8 encoding of one character, as `Buffer.from(content)` performs it. -/
def utf8EncodeCharModel (c : Char) : List Nat :=
  let n := c.toNat
  if n < 128 then [n]
  else if n < 2048 then [192 + n / 64, 128 + n % 64]
  else if n < 65536 then [224 + n / 4096, 128 + n / 64 % 64, 128 + n % 64]
  else [240 + n / 262144, 128 + n / 4096 % 64, 128 + n / 64 % 64, 128 + n % 64]

/-- UTF-8 bytes of a string, as `Buffer.from(content)` produces them. -/
def utf8Bytes (s : String) : List Nat :=
  (s.data.map utf8EncodeCharModel).flatten

/-- The standard base64 alphabet. -/
def base64Alphabet : List Char :=
  "ABCDEFGHIJKLMNOPQRSTUVWXYZabcdefghijklmnopqrstuvwxyz0123456789+/".data

/-- Base64 digit for a 6-bit value. -/
def base64Char (n : Nat) : Char :=
  base64Alphabet.getD n 'A'

/-- Base64 character stream of a byte list (standard alphabet, with padding
characters, no line wrapping), as `Buffer.toString('base64')` produces it. -/
def base64Chunks : List Nat → List Char
  | [] => []
  | [b1] =>
    [base64Char (b1 / 4), base64Char (b1 % 4 * 16), '=', '=']
  | [b1, b2] =>
    [base64Char (b1 / 4), base64Char (b1 % 4 * 16 + b2 / 16),
     base64Char (b2 % 16 * 4), '=']
  | b1 :: b2 :: b3 :: rest =>
    [base64Char (b1 / 4), base64Char (b1 % 4 * 16 + b2 / 16),
     base64Char (b2 % 16 * 4 + b3 / 64), base64Char (b3 % 64)]
      ++ base64Chunks rest

/-- Base64 encoding of a byte list as a string. -/
def base64Encode (l : List Nat) : String :=
  String.mk (base64Chunks l)

/-- Behaviour of one call to `publicEncrypt(options, buffer)`: either
ciphertext bytes, or a thrown error (`Except.error`).  The argument order is
key material, then message bytes. -/
def PublicEncrypt : Type :=
  String → List Nat → Except Unit (List Nat)

/-- Behaviour of one call to `JSEncrypt.encrypt(content)` after
`setPublicKey(key)`: a thrown error (`Except.error`), the value `false`
(`Except.ok none`), or a base64 ciphertext string (`Except.ok (some s)`). -/
def JsencryptEncrypt : Type :=
  String → String → Except Unit (Option String)

/-- The Node.js backend variant of `createHappCryptoLink`.  The version tag
defaults to `v4`.  A lookup miss makes `config.publicKey` throw a TypeError
inside the try block, and a `publicEncrypt` throw is likewise caught; both
are converted to `null` (`none`) by the catch clause. -/
def Backend.createHappCryptoLink (pe : PublicEncrypt) (content : String)
    (version : String := "v4") : Option HappCryptoResult :=
  match CRYPTO_CONFIGS version with
  | none => none
  | some config =>
    match pe config.publicKey (utf8Bytes content) with
    | Except.error _ => none
    | Except.ok encrypted =>
      some { deepLink := config.deepLink
             encryptedContent := base64Encode encrypted }

/-- Output shape of the overloaded jsencrypt variant: a composed link string
when `asLink` is true, otherwise a `HappCryptoResult` pair. -/
inductive HappCryptoOutput where
  | link (value : String)
  | pair (result : HappCryptoResult)
deriving DecidableEq

/-- The overloaded jsencrypt variant of `createHappCryptoLink`.  The version
argument is required; `asLink` selects the output shape.  The code checks
`if (!encryptedContent) return null`, which fires on the value `false`
(`none`) and on the empty string; a throw anywhere in the try block is
caught and converted to `null`. -/
def Overload.createHappCryptoLink (je : JsencryptEncrypt)
    (content version : String) (asLink : Bool := false) :
    Option HappCryptoOutput :=
  match CRYPTO_CONFIGS version with
  | none => none
  | some config =>
    match je config.publicKey content with
    | Except.error _ => none
    | Except.ok none => none
    | Except.ok (some encryptedContent) =>
      if encryptedContent = "" then none
      else if asLink then
        some (HappCryptoOutput.link (config.deepLink ++ encryptedContent))
      else
        some (HappCryptoOutput.pair
          { deepLink := config.deepLink
            encryptedContent := encryptedContent })

/-- The jsencrypt frontend variant of `createHappCryptoLink`.  The version
tag defaults to `v4`; the output is always the pair shape.  The falsy check
and the catch clause behave as in the overloaded variant. -/
def Frontend.createHappCryptoLink (je : JsencryptEncrypt) (content : String)
    (version : String := "v4") : Option HappCryptoResult :=
  match CRYPTO_CONFIGS version with
  | none => none
  | some config =>
    match je config.publicKey content with
    | Except.error _ => none
    | Except.ok none => none
    | Except.ok (some encryptedContent) =>
      if encryptedContent = "" then none
      else
        some { deepLink := config.deepLink
               encryptedContent := encryptedContent }

/-- Modelled from the spec: the PKCS#1 v1.5 encryption padding of a message
into a block of `keyBytes` bytes — `00 02`, at least eight nonzero random
padding bytes (derived here from a seed), `00`, then the message. -/
def pkcs1Pad (keyBytes seed : Nat) (msg : List Nat) : List Nat :=
  0 :: 2 ::
    (((List.range (keyBytes - msg.length - 3)).map
        (fun i => 1 + (seed + i) % 255)) ++ (0 :: msg))

/-- Modelled from the spec: `node:crypto`'s `publicEncrypt` with
`RSA_PKCS1_PADDING` under an `N`-bit key.  The primitive is external to the
repository; the spec fixes its contract: plaintext capacity `N/8 - 11`
bytes (throwing beyond it), randomized padding drawn from a random source
(here a seed), and a ciphertext of exactly `N/8` bytes.  RSA modular
exponentiation is a permutation of blocks; it is modelled as the identity
on the padded block, which preserves exactly the injectivity the claims
rely on. -/
def publicEncryptModel (keyBits seed : Nat) : PublicEncrypt :=
  fun _key msg =>
    if msg.length + 11 ≤ keyBits / 8 then
      Except.ok (pkcs1Pad (keyBits / 8) seed msg)
    else
      Except.error ()

/-- Modelled from the spec: `JSEncrypt.encrypt` under an `N`-bit key.  The
library UTF-8 encodes the content, applies the same PKCS#1 v1.5 scheme and
returns the base64 ciphertext, or the value `false` on failure (oversize
content) instead of throwing. -/
def jsencryptModel (keyBits seed : Nat) : JsencryptEncrypt :=
  fun _key content =>
    Except.ok
      (if (utf8Bytes content).length + 11 ≤ keyBits / 8 then
        some (base64Encode (pkcs1Pad (keyBits / 8) seed (utf8Bytes content)))
      else
        none)

theorem base64Chunks_ne_nil (b : Nat) (t : List Nat) :
    base64Chunks (b :: t) ≠ [] := by
  match t with
  | [] => simp [base64Chunks]
  | [b2] => simp [base64Chunks]
  | b2 :: b3 :: rest => simp [base64Chunks]

theorem string_mk_ne_empty (c : Char) (cs : List Char) :
    String.mk (c :: cs) ≠ "" := by
  intro h
  simpa using congrArg String.data h

theorem base64Encode_ne_empty (b : Nat) (t : List Nat) :
    base64Encode (b :: t) ≠ "" := by
  obtain ⟨c, cs, hcs⟩ := List.exists_cons_of_ne_nil (base64Chunks_ne_nil b t)
  rw [base64Encode, hcs]
  exact string_mk_ne_empty c cs

theorem pkcs1Pad_cons (k s : Nat) (m : List Nat) :
    ∃ t, pkcs1Pad k s m = 0 :: t :=
  ⟨_, rfl⟩

theorem base64Encode_pkcs1Pad_ne_empty (k s : Nat) (m : List Nat) :
    base64Encode (pkcs1Pad k s m) ≠ "" := by
  obtain ⟨t, ht⟩ := pkcs1Pad_cons k s m
  rw [ht]
  exact base64Encode_ne_empty 0 t

/-- C1: in each of the three implementation variants, every internal fault —
a version lookup miss (which makes the `config.publicKey` access throw) or a
throwing encryption primitive (key parsing failure, encryption failure) — is
caught by the surrounding try/catch and the function returns the uniform
failure value `none` (null) instead of letting the exception propagate. -/
theorem c1_all_faults_caught (content version : String) (pe : PublicEncrypt)
    (je : JsencryptEncrypt) (asLink : Bool)
    (hfault : CRYPTO_CONFIGS version = none ∨
      ((∀ k m, pe k m = Except.error ()) ∧
       (∀ k c, je k c = Except.error ()))) :
    Backend.createHappCryptoLink pe content version = none ∧
    Overload.createHappCryptoLink je content version asLink = none ∧
    Frontend.createHappCryptoLink je content version = none := by
  rcases hfault with hnone | ⟨hpe, hje⟩
  · simp [Backend.createHappCryptoLink, Overload.createHappCryptoLink,
      Frontend.createHappCryptoLink, hnone]
  · cases hcfg : CRYPTO_CONFIGS version with
    | none =>
      simp [Backend.createHappCryptoLink, Overload.createHappCryptoLink,
        Frontend.createHappCryptoLink, hcfg]
    | some config =>
      simp [Backend.createHappCryptoLink, Overload.createHappCryptoLink,
        Frontend.createHappCryptoLink, hcfg, hpe, hje]

-- Witness for C1: a primitive that always throws, at concrete inputs.
theorem c1_all_faults_caught_witness :
    Backend.createHappCryptoLink (fun _ _ => Except.error ()) "x" "v4" = none ∧
    Overload.createHappCryptoLink (fun _ _ => Except.error ()) "x" "v4" false
      = none ∧
    Frontend.createHappCryptoLink (fun _ _ => Except.error ()) "x" "v4"
      = none :=
  c1_all_faults_caught "x" "v4" (fun _ _ => Except.error ())
    (fun _ _ => Except.error ()) false
    (Or.inr ⟨fun _ _ => rfl, fun _ _ => rfl⟩)

/-- C2: under the spec-modelled primitive for a key of bit-length `N`,
content whose UTF-8 byte length is at most `N/8 - 11` succeeds (non-null
result) and content of byte length `N/8 - 10` or more yields null, both in
the backend variant and in the overloaded jsencrypt variant. -/
theorem c2_capacity_boundary (N seed : Nat) (content version : String)
    (hN : 11 ≤ N / 8)
    (hv : version = "v2" ∨ version = "v3" ∨ version = "v4") :
    ((utf8Bytes content).length ≤ N / 8 - 11 →
      Backend.createHappCryptoLink (publicEncryptModel N seed)
          content version ≠ none ∧
      Overload.createHappCryptoLink (jsencryptModel N seed)
          content version false ≠ none) ∧
    (N / 8 - 10 ≤ (utf8Bytes content).length →
      Backend.createHappCryptoLink (publicEncryptModel N seed)
          content version = none ∧
      Overload.createHappCryptoLink (jsencryptModel N seed)
          content version false = none) := by
  obtain ⟨cfg, hcfg⟩ : ∃ cfg, CRYPTO_CONFIGS version = some cfg := by
    rcases hv with h | h | h <;> subst h <;> exact ⟨_, rfl⟩
  constructor
  · intro hle
    have hcond : (utf8Bytes content).length + 11 ≤ N / 8 := by omega
    constructor
    · simp [Backend.createHappCryptoLink, publicEncryptModel, hcfg, hcond]
    · simp [Overload.createHappCryptoLink, jsencryptModel, hcfg, hcond,
        base64Encode_pkcs1Pad_ne_empty]
  · intro hge
    have hcond : ¬ ((utf8Bytes content).length + 11 ≤ N / 8) := by omega
    constructor
    · simp [Backend.createHappCryptoLink, publicEncryptModel, hcfg, hcond]
    · simp [Overload.createHappCryptoLink, jsencryptModel, hcfg, hcond]

-- Witness for C2: a 96-bit key has capacity 1: "a" succeeds, "ab" fails.
theorem c2_capacity_boundary_witness :
    (11 ≤ 96 / 8 ∧ (utf8Bytes "a").length ≤ 96 / 8 - 11 ∧
      Backend.createHappCryptoLink (publicEncryptModel 96 0) "a" "v4"
        ≠ none) ∧
    (96 / 8 - 10 ≤ (utf8Bytes "ab").length ∧
      Backend.createHappCryptoLink (publicEncryptModel 96 0) "ab" "v4"
        = none) :=
  ⟨⟨by decide, by decide,
    ((c2_capacity_boundary 96 0 "a" "v4" (by decide)
        (Or.inr (Or.inr rfl))).1 (by decide)).1⟩,
   ⟨by decide,
    ((c2_capacity_boundary 96 0 "ab" "v4" (by decide)
        (Or.inr (Or.inr rfl))).2 (by decide)).1⟩⟩

/-- C3: the `asLink` flag selects only the packaging: whenever the pair form
returns a result `r`, the composed-string form (computed from the same
encryption outcome) returns exactly `r.deepLink ++ r.encryptedContent`,
with no extra separator. -/
theorem c3_asLink_packaging (je : JsencryptEncrypt) (content version : String)
    (r : HappCryptoResult)
    (h : Overload.createHappCryptoLink je content version false =
      some (HappCryptoOutput.pair r)) :
    Overload.createHappCryptoLink je content version true =
      some (HappCryptoOutput.link (r.deepLink ++ r.encryptedContent)) := by
  obtain ⟨rd, re⟩ := r
  cases hcfg : CRYPTO_CONFIGS version with
  | none => simp [Overload.createHappCryptoLink, hcfg] at h
  | some config =>
    cases hje : je config.publicKey content with
    | error e => simp [Overload.createHappCryptoLink, hcfg, hje] at h
    | ok v =>
      cases v with
      | none => simp [Overload.createHappCryptoLink, hcfg, hje] at h
      | some ec =>
        by_cases hec : ec = ""
        · simp [Overload.createHappCryptoLink, hcfg, hje, hec] at h
        · simp [Overload.createHappCryptoLink, hcfg, hje, hec] at h ⊢
          obtain ⟨h1, h2⟩ := h
          rw [h1, h2]

-- Witness for C3: a fixed primitive output, at concrete inputs.
theorem c3_asLink_packaging_witness :
    Overload.createHappCryptoLink (fun _ _ => Except.ok (some "CIPHER"))
        "x" "v2" true =
      some (HappCryptoOutput.link ("happ://crypt2/" ++ "CIPHER")) :=
  c3_asLink_packaging (fun _ _ => Except.ok (some "CIPHER")) "x" "v2"
    { deepLink := "happ://crypt2/", encryptedContent := "CIPHER" } (by decide)

/-- C4 counterexample: in the backend variant, a library that signals
failure by returning an empty result does not lead to null — the code has
no falsy check there, so the function returns a partial result whose
`encryptedContent` is the empty string, contradicting the claim that every
variant converts an empty/falsy library result to null. -/
theorem c4_backend_empty_result_counterexample :
    Backend.createHappCryptoLink (fun _ _ => Except.ok []) "x" "v4" =
      some { deepLink := "happ://crypt4/", encryptedContent := "" } := by
  decide

/-- C4 (amended): in the jsencrypt-based variants, an encryption result that
is falsy (the value `false` or the empty string) yields null and never a
partial result; the backend variant's library signals failure by throwing,
and a throw yields null there. -/
theorem c4_falsy_result_amended (je : JsencryptEncrypt) (pe : PublicEncrypt)
    (content version : String) (asLink : Bool)
    (hje : ∀ k c, je k c = Except.ok none ∨ je k c = Except.ok (some ""))
    (hpe : ∀ k m, pe k m = Except.error ()) :
    Overload.createHappCryptoLink je content version asLink = none ∧
    Frontend.createHappCryptoLink je content version = none ∧
    Backend.createHappCryptoLink pe content version = none := by
  cases hcfg : CRYPTO_CONFIGS version with
  | none =>
    simp [Overload.createHappCryptoLink, Frontend.createHappCryptoLink,
      Backend.createHappCryptoLink, hcfg]
  | some config =>
    refine ⟨?_, ?_, ?_⟩
    · rcases hje config.publicKey content with h | h <;>
        simp [Overload.createHappCryptoLink, hcfg, h]
    · rcases hje config.publicKey content with h | h <;>
        simp [Frontend.createHappCryptoLink, hcfg, h]
    · simp [Backend.createHappCryptoLink, hcfg, hpe]

-- Witness for C4 (amended): a primitive returning `false`, and one that
-- throws, at concrete inputs.
theorem c4_falsy_result_amended_witness :
    Overload.createHappCryptoLink (fun _ _ => Except.ok none) "x" "v4" false
      = none ∧
    Frontend.createHappCryptoLink (fun _ _ => Except.ok none) "x" "v4"
      = none ∧
    Backend.createHappCryptoLink (fun _ _ => Except.error ()) "x" "v4"
      = none :=
  c4_falsy_result_amended (fun _ _ => Except.ok none)
    (fun _ _ => Except.error ()) "x" "v4" false
    (fun _ _ => Or.inl rfl) (fun _ _ => rfl)

/-- C5: a version tag outside `{v2, v3, v4}`, as can arise at runtime in a
dynamically typed host, makes every variant return the uniform failure
value null rather than crash or produce a result. -/
theorem c5_unknown_version (version : String)
    (hv : version ≠ "v2" ∧ version ≠ "v3" ∧ version ≠ "v4")
    (pe : PublicEncrypt) (je : JsencryptEncrypt) (content : String)
    (asLink : Bool) :
    Backend.createHappCryptoLink pe content version = none ∧
    Overload.createHappCryptoLink je content version asLink = none ∧
    Frontend.createHappCryptoLink je content version = none := by
  have hcfg : CRYPTO_CONFIGS version = none := by
    obtain ⟨h2, h3, h4⟩ := hv
    unfold CRYPTO_CONFIGS
    split <;> simp_all
  simp [Backend.createHappCryptoLink, Overload.createHappCryptoLink,
    Frontend.createHappCryptoLink, hcfg]

-- Witness for C5: the unsupported tag "v1", at concrete inputs.
theorem c5_unknown_version_witness :
    Backend.createHappCryptoLink (fun _ _ => Except.ok [1]) "x" "v1" = none ∧
    Overload.createHappCryptoLink (fun _ _ => Except.ok (some "E")) "x" "v1"
        false = none ∧
    Frontend.createHappCryptoLink (fun _ _ => Except.ok (some "E")) "x" "v1"
      = none :=
  c5_unknown_version "v1" ⟨by decide, by decide, by decide⟩
    (fun _ _ => Except.ok [1]) (fun _ _ => Except.ok (some "E")) "x" false

/-- C6: the deep link of every successful pair result, in any of the three
variants and regardless of content and of the primitive's output, is exactly
the configured value of the version tag; the tags map to `happ://crypt2/`,
`happ://crypt3/`, `happ://crypt4/` respectively, and the three
configurations carry pairwise distinct, non-empty public keys and pairwise
distinct, non-empty deep links. -/
theorem c6_deepLink_determined_by_version :
    (∀ (pe : PublicEncrypt) (je : JsencryptEncrypt) (content : String)
        (version : String) (cfg : CryptoConfig) (r : HappCryptoResult),
      CRYPTO_CONFIGS version = some cfg →
      (Backend.createHappCryptoLink pe content version = some r ∨
       Frontend.createHappCryptoLink je content version = some r ∨
       Overload.createHappCryptoLink je content version false =
         some (HappCryptoOutput.pair r)) →
      r.deepLink = cfg.deepLink) ∧
    CRYPTO_CONFIGS "v2" = some HAPP_CRYPTO_V2 ∧
    CRYPTO_CONFIGS "v3" = some HAPP_CRYPTO_V3 ∧
    CRYPTO_CONFIGS "v4" = some HAPP_CRYPTO_V4 ∧
    HAPP_CRYPTO_V2.deepLink = "happ://crypt2/" ∧
    HAPP_CRYPTO_V3.deepLink = "happ://crypt3/" ∧
    HAPP_CRYPTO_V4.deepLink = "happ://crypt4/" ∧
    HAPP_CRYPTO_V2.publicKey ≠ HAPP_CRYPTO_V3.publicKey ∧
    HAPP_CRYPTO_V2.publicKey ≠ HAPP_CRYPTO_V4.publicKey ∧
    HAPP_CRYPTO_V3.publicKey ≠ HAPP_CRYPTO_V4.publicKey ∧
    HAPP_CRYPTO_V2.publicKey ≠ "" ∧
    HAPP_CRYPTO_V3.publicKey ≠ "" ∧
    HAPP_CRYPTO_V4.publicKey ≠ "" ∧
    HAPP_CRYPTO_V2.deepLink ≠ HAPP_CRYPTO_V3.deepLink ∧
    HAPP_CRYPTO_V2.deepLink ≠ HAPP_CRYPTO_V4.deepLink ∧
    HAPP_CRYPTO_V3.deepLink ≠ HAPP_CRYPTO_V4.deepLink ∧
    HAPP_CRYPTO_V2.deepLink ≠ "" ∧
    HAPP_CRYPTO_V3.deepLink ≠ "" ∧
    HAPP_CRYPTO_V4.deepLink ≠ "" := by
  refine ⟨?_, by decide⟩
  intro pe je content version cfg r hcfg hcall
  obtain ⟨rd, re⟩ := r
  rcases hcall with h | h | h
  · cases hpe : pe cfg.publicKey (utf8Bytes content) with
    | error e => simp [Backend.createHappCryptoLink, hcfg, hpe] at h
    | ok enc =>
      simp [Backend.createHappCryptoLink, hcfg, hpe] at h
      exact h.1.symm
  · cases hje : je cfg.publicKey content with
    | error e => simp [Frontend.createHappCryptoLink, hcfg, hje] at h
    | ok v =>
      cases v with
      | none => simp [Frontend.createHappCryptoLink, hcfg, hje] at h
      | some ec =>
        by_cases hec : ec = ""
        · simp [Frontend.createHappCryptoLink, hcfg, hje, hec] at h
        · simp [Frontend.createHappCryptoLink, hcfg, hje, hec] at h
          exact h.1.symm
  · cases hje : je cfg.publicKey content with
    | error e => simp [Overload.createHappCryptoLink, hcfg, hje] at h
    | ok v =>
      cases v with
      | none => simp [Overload.createHappCryptoLink, hcfg, hje] at h
      | some ec =>
        by_cases hec : ec = ""
        · simp [Overload.createHappCryptoLink, hcfg, hje, hec] at h
        · simp [Overload.createHappCryptoLink, hcfg, hje, hec] at h
          exact h.1.symm

-- Witness for C6: a concrete backend call under version "v2".
theorem c6_deepLink_determined_by_version_witness :
    ({ deepLink := "happ://crypt2/", encryptedContent := "AQ==" } :
        HappCryptoResult).deepLink = HAPP_CRYPTO_V2.deepLink :=
  c6_deepLink_determined_by_version.1 (fun _ _ => Except.ok [1])
    (fun _ _ => Except.error ()) "x" "v2" HAPP_CRYPTO_V2
    { deepLink := "happ://crypt2/", encryptedContent := "AQ==" } rfl
    (Or.inl (by decide))

/-- C7: in the two convenience variants, a call with the version argument
omitted behaves identically to a call with version `v4`; the overloaded
variant's signature carries no default for the version parameter. -/
theorem c7_default_version (pe : PublicEncrypt) (je : JsencryptEncrypt)
    (content : String) :
    Backend.createHappCryptoLink pe content =
      Backend.createHappCryptoLink pe content "v4" ∧
    Frontend.createHappCryptoLink je content =
      Frontend.createHappCryptoLink je content "v4" :=
  ⟨rfl, rfl⟩

/-- C8: for every supported version tag, encrypting the empty string
succeeds under the spec-modelled primitive and the result's base64
ciphertext is non-empty, in the backend and frontend variants. -/
theorem c8_empty_content (N seed : Nat) (version : String) (hN : 11 ≤ N / 8)
    (hv : version = "v2" ∨ version = "v3" ∨ version = "v4") :
    (∃ r, Backend.createHappCryptoLink (publicEncryptModel N seed) ""
        version = some r ∧ r.encryptedContent ≠ "") ∧
    (∃ r, Frontend.createHappCryptoLink (jsencryptModel N seed) ""
        version = some r ∧ r.encryptedContent ≠ "") := by
  obtain ⟨cfg, hcfg⟩ : ∃ cfg, CRYPTO_CONFIGS version = some cfg := by
    rcases hv with h | h | h <;> subst h <;> exact ⟨_, rfl⟩
  have hcond : (utf8Bytes "").length + 11 ≤ N / 8 := by
    simpa [utf8Bytes] using hN
  refine ⟨⟨{ deepLink := cfg.deepLink,
             encryptedContent :=
               base64Encode (pkcs1Pad (N / 8) seed (utf8Bytes "")) },
           ?_, base64Encode_pkcs1Pad_ne_empty _ _ _⟩,
          ⟨{ deepLink := cfg.deepLink,
             encryptedContent :=
               base64Encode (pkcs1Pad (N / 8) seed (utf8Bytes "")) },
           ?_, base64Encode_pkcs1Pad_ne_empty _ _ _⟩⟩
  · simp [Backend.createHappCryptoLink, publicEncryptModel, hcfg, hcond]
  · simp [Frontend.createHappCryptoLink, jsencryptModel, hcfg, hcond,
      base64Encode_pkcs1Pad_ne_empty]

-- Witness for C8: a 4096-bit key (the largest configured size) and
-- version "v4".
theorem c8_empty_content_witness :
    (∃ r, Backend.createHappCryptoLink (publicEncryptModel 4096 0) ""
        "v4" = some r ∧ r.encryptedContent ≠ "") ∧
    (∃ r, Frontend.createHappCryptoLink (jsencryptModel 4096 0) ""
        "v4" = some r ∧ r.encryptedContent ≠ "") :=
  c8_empty_content 4096 0 "v4" (by decide) (Or.inr (Or.inr rfl))

/-- C9: ciphertext non-determinism across calls — under the spec-modelled
randomized PKCS#1 v1.5 padding there are two successful calls with
identical content and identical version but different random draws whose
base64 ciphertexts differ, while their deep links agree. -/
theorem c9_randomized_ciphertext :
    ∃ s1 s2 : Nat, s1 ≠ s2 ∧
      Backend.createHappCryptoLink (publicEncryptModel 1024 s1) "hello" "v4"
        ≠ none ∧
      Backend.createHappCryptoLink (publicEncryptModel 1024 s2) "hello" "v4"
        ≠ none ∧
      Option.map HappCryptoResult.deepLink
          (Backend.createHappCryptoLink (publicEncryptModel 1024 s1)
            "hello" "v4") =
        Option.map HappCryptoResult.deepLink
          (Backend.createHappCryptoLink (publicEncryptModel 1024 s2)
            "hello" "v4") ∧
      Option.map HappCryptoResult.encryptedContent
          (Backend.createHappCryptoLink (publicEncryptModel 1024 s1)
            "hello" "v4") ≠
        Option.map HappCryptoResult.encryptedContent
          (Backend.createHappCryptoLink (publicEncryptModel 1024 s2)
            "hello" "v4") :=
  ⟨0, 1, by decide⟩

/-- An RSA encryption primitive shared by both implementations: ciphertext
bytes from key material and message bytes, `none` on failure.  `toPublicEncrypt`
realises it as `node:crypto`'s interface (throwing on failure) and
`toJsencrypt` as jsencrypt's (base64 string, or `false` on failure). -/
def RsaPrimitive : Type :=
  String → List Nat → Option (List Nat)

/-- A common primitive seen through `publicEncrypt`: failure throws. -/
def toPublicEncrypt (enc : RsaPrimitive) : PublicEncrypt :=
  fun k m =>
    match enc k m with
    | some c => Except.ok c
    | none => Except.error ()

/-- A common primitive seen through `JSEncrypt.encrypt`: the library UTF-8
encodes the content, encrypts, and base64-encodes; failure returns
`false` (`none`). -/
def toJsencrypt (enc : RsaPrimitive) : JsencryptEncrypt :=
  fun k content =>
    Except.ok (Option.map base64Encode (enc k (utf8Bytes content)))

/-- C10: when the backend and frontend variants run over the same underlying
RSA/PKCS#1 v1.5 primitive (which, producing genuine ciphertext blocks,
never returns an empty ciphertext), they return equal results for every
content and version: same deep link, same base64 ciphertext, and null
exactly together. -/
theorem c10_backend_frontend_equivalent (enc : RsaPrimitive)
    (content version : String)
    (hne : ∀ k m, enc k m ≠ some []) :
    Backend.createHappCryptoLink (toPublicEncrypt enc) content version =
      Frontend.createHappCryptoLink (toJsencrypt enc) content version := by
  cases hcfg : CRYPTO_CONFIGS version with
  | none =>
    simp [Backend.createHappCryptoLink, Frontend.createHappCryptoLink, hcfg]
  | some config =>
    cases henc : enc config.publicKey (utf8Bytes content) with
    | none =>
      simp [Backend.createHappCryptoLink, Frontend.createHappCryptoLink,
        toPublicEncrypt, toJsencrypt, hcfg, henc]
    | some c =>
      cases c with
      | nil => exact absurd henc (hne _ _)
      | cons b t =>
        simp [Backend.createHappCryptoLink, Frontend.createHappCryptoLink,
          toPublicEncrypt, toJsencrypt, hcfg, henc, base64Encode_ne_empty]

-- Witness for C10: a fixed one-byte ciphertext primitive under "v3".
theorem c10_backend_frontend_equivalent_witness :
    Backend.createHappCryptoLink (toPublicEncrypt (fun _ _ => some [1]))
        "x" "v3" =
      Frontend.createHappCryptoLink (toJsencrypt (fun _ _ => some [1]))
        "x" "v3" :=
  c10_backend_frontend_equivalent (fun _ _ => some [1]) "x" "v3"
    (fun k m h => by simp at h)

end Cryptohapp
